import Mathlib

/-!
Shallow embedding of `customTreeWidgetUI.py` (KieranKnight/CustomQTreeWidget).

The module builds a Qt tree widget from a dictionary mapping folder keys to
lists of version groups, each group a list of record dictionaries with the
four fields Sequence, Shot, Version, Location.  We model:

* a record dictionary as an association list `Record`;
* `CustomTreeItem.__init__` (which reads the four fields with `name['...']`,
  raising `KeyError` on a missing field) as `CustomTreeItem.fromRecord`
  in the `Except BuildError` monad;
* the per-folder loop of `CustomTreeWidget.__init__`
  (`_header = self; for val in reversed(value): _item = CustomTreeItem(val[0], self, _header); if isinstance(_header, CustomTreeWidget): _header = _item`)
  as `folderLoop`/`buildFolder`: the first created item becomes a top-level
  node, every later item is appended as a direct child of that first item;
* the outer loop over `self.data.items()` as `widgetLoop`/`buildTopLevel`;
* `UI.show_data_useage` as `show_data_useage`, returning the printed lines.
-/

set_option autoImplicit false

namespace CustomQTree

/-- A Python record dictionary `{'Sequence': ..., 'Shot': ..., ...}`,
modelled as an association list of string keys to string values. -/
abbrev Record := List (String × String)

/-- The ways tree construction can raise in the Python source:
`name['...']` on a record missing that key raises `KeyError` (a missing
field), and `val[0]` on an empty version group raises `IndexError`. -/
inductive BuildError where
  | fieldMissing (field : String)
  | indexError
deriving DecidableEq, Repr

/-- `name[key]` on a Python dict: the value when present, `KeyError`
(as `BuildError.fieldMissing key`) when absent. -/
def dict_get (name : Record) (key : String) : Except BuildError String :=
  match List.lookup key name with
  | some v => .ok v
  | none => .error (.fieldMissing key)

/-- A `CustomTreeItem`: the four `QLabel` cell widgets collapsed to the text
each holds.  The field names match the Python property accessors
(`sequence`, `shot`, `version`, `location`, each returning the label whose
`text()` is the stored string). -/
structure CustomTreeItem where
  sequence : String
  shot : String
  version : String
  location : String
deriving DecidableEq, Repr

/-- `CustomTreeItem.__init__(name, ...)`: reads `name['Sequence']`,
`name['Shot']`, `name['Version']`, `name['Location']` in that order and
stores each in its label; a missing key raises before construction
completes. -/
def CustomTreeItem.fromRecord (name : Record) : Except BuildError CustomTreeItem := do
  let s ← dict_get name "Sequence"
  let sh ← dict_get name "Shot"
  let v ← dict_get name "Version"
  let l ← dict_get name "Location"
  .ok ⟨s, sh, v, l⟩

/-- `val[0]` on a version group: its first record, or `IndexError` when the
group is empty. -/
def groupFirst (val : List Record) : Except BuildError Record :=
  match val with
  | [] => .error .indexError
  | r :: _ => .ok r

/-- The item the loop body builds from one version group:
`CustomTreeItem(val[0], ...)`. -/
def itemOfGroup (val : List Record) : Except BuildError CustomTreeItem := do
  CustomTreeItem.fromRecord (← groupFirst val)

/-- The items the loop would build from a list of version groups, in list
order (one item per group, from the group's first record). -/
def itemsOfGroups : List (List Record) → Except BuildError (List CustomTreeItem)
  | [] => .ok []
  | g :: rest => do
    let it ← itemOfGroup g
    let its ← itemsOfGroups rest
    .ok (it :: its)

/-- The tree structure one folder produces: a top-level item together with
its directly attached children.  The loop never nests deeper, because
`_header` is reassigned only while it is still the tree widget itself. -/
abbrev FolderNode := CustomTreeItem × List CustomTreeItem

/-- The inner loop of `CustomTreeWidget.__init__` over `reversed(value)`.
The state is `_header`: `none` while `_header` is still the tree widget,
`some (root, kids)` once the first item has been created and became the
parent for the rest. -/
def folderLoop : Option FolderNode → List (List Record) → Except BuildError (Option FolderNode)
  | st, [] => .ok st
  | st, val :: rest => do
    let it ← itemOfGroup val
    match st with
    | none => folderLoop (some (it, [])) rest
    | some (root, kids) => folderLoop (some (root, kids ++ [it])) rest

/-- One folder's contribution to the tree: run the inner loop on the
reversed version-group list, starting with `_header = self`. -/
def buildFolder (value : List (List Record)) : Except BuildError (Option FolderNode) :=
  folderLoop none value.reverse

/-- The input dictionary: folder keys to lists of version groups, in
insertion order (Python dict iteration order). -/
abbrev FolderData := List (String × List (List Record))

/-- The outer loop of `CustomTreeWidget.__init__` over `self.data.items()`,
accumulating top-level nodes in creation order. -/
def widgetLoop : List FolderNode → FolderData → Except BuildError (List FolderNode)
  | acc, [] => .ok acc
  | acc, (_, value) :: rest => do
    match ← buildFolder value with
    | none => widgetLoop acc rest
    | some nd => widgetLoop (acc ++ [nd]) rest

/-- All top-level nodes of the built tree, in creation order. -/
def buildTopLevel (data : FolderData) : Except BuildError (List FolderNode) :=
  widgetLoop [] data

/-- The column headers `CustomTreeWidget._HEADERS`. -/
def _HEADERS : List String := ["Sequence", "Shot", "Version", "Location"]

/-- The `CustomTreeWidget` object after `__init__`: the stored input
dictionary `self._data` and the created top-level nodes. -/
structure CustomTreeWidget where
  stored_data : FolderData
  topLevelItems : List FolderNode
deriving DecidableEq, Repr

/-- The `data` property: returns `self._data`. -/
def CustomTreeWidget.data (w : CustomTreeWidget) : FolderData := w.stored_data

/-- The `headers` property: returns `self._HEADERS`. -/
def CustomTreeWidget.headers (_w : CustomTreeWidget) : List String := _HEADERS

/-- `CustomTreeWidget.__init__(data)`: stores the input dictionary unchanged
and builds the tree from it. -/
def CustomTreeWidget.build (data : FolderData) : Except BuildError CustomTreeWidget := do
  let ts ← buildTopLevel data
  .ok ⟨data, ts⟩

/-- The version items a folder's node displays, top to bottom: the top-level
item first, then its children in attachment order. -/
def displayedVersions : Option FolderNode → List CustomTreeItem
  | none => []
  | some (root, kids) => root :: kids

/-- The four lines `show_data_useage` prints for one selected item, in
source order: Sequence, Shot, Version, Location. -/
def itemLines (selected : CustomTreeItem) : List String :=
  [">> Sequence: " ++ selected.sequence,
   ">> Shot: " ++ selected.shot,
   ">> Version: " ++ selected.version,
   ">> Location: " ++ selected.location]

/-- `UI.show_data_useage`: with no selection, print the single line
`Please select a row` and return; otherwise print the four field lines for
each selected item.  The returned list is the printed output in order. -/
def show_data_useage (_selected_items : List CustomTreeItem) : List String :=
  if _selected_items.isEmpty then
    ["Please select a row"]
  else
    _selected_items.foldr (fun s acc => itemLines s ++ acc) []

/-- The module's example dictionary `_data`, verbatim. -/
def _data : FolderData :=
  [("/folderOne",
    [[[("Sequence", "zzz999"), ("Shot", "zzz_1234"), ("Version", "01"), ("Location", "/file/path")]]]),
   ("/folderTwo",
    [[[("Sequence", "zzz999"), ("Shot", "zzz999_000"), ("Version", "01"), ("Location", "/file/path")]],
     [[("Sequence", "zzz999"), ("Shot", "zzz999_000"), ("Version", "02"), ("Location", "/file/path")]]]),
   ("/folderThree",
    [[[("Sequence", "abc111"), ("Shot", "abc111_5678"), ("Version", "01"), ("Location", "/file/path")]],
     [[("Sequence", "abc111"), ("Shot", "abc111_5678"), ("Version", "02"), ("Location", "/file/path")]],
     [[("Sequence", "abc111"), ("Shot", "abc111_5678"), ("Version", "03"), ("Location", "/file/path")]],
     [[("Sequence", "abc111"), ("Shot", "abc111_5678"), ("Version", "05"), ("Location", "/file/path")]]])]

/-! ### The example records and the tree they build, named for the theorems -/

/-- The single record of `/folderOne`. -/
def recOne : Record :=
  [("Sequence", "zzz999"), ("Shot", "zzz_1234"), ("Version", "01"), ("Location", "/file/path")]

/-- The first record of `/folderTwo` (Version 01). -/
def recTwo01 : Record :=
  [("Sequence", "zzz999"), ("Shot", "zzz999_000"), ("Version", "01"), ("Location", "/file/path")]

/-- The second record of `/folderTwo` (Version 02). -/
def recTwo02 : Record :=
  [("Sequence", "zzz999"), ("Shot", "zzz999_000"), ("Version", "02"), ("Location", "/file/path")]

/-- The records of `/folderThree` (Versions 01, 02, 03, 05). -/
def recThree01 : Record :=
  [("Sequence", "abc111"), ("Shot", "abc111_5678"), ("Version", "01"), ("Location", "/file/path")]

def recThree02 : Record :=
  [("Sequence", "abc111"), ("Shot", "abc111_5678"), ("Version", "02"), ("Location", "/file/path")]

def recThree03 : Record :=
  [("Sequence", "abc111"), ("Shot", "abc111_5678"), ("Version", "03"), ("Location", "/file/path")]

def recThree05 : Record :=
  [("Sequence", "abc111"), ("Shot", "abc111_5678"), ("Version", "05"), ("Location", "/file/path")]

/-- The version-group list of `/folderThree` in `_data`. -/
def folderThreeGroups : List (List Record) :=
  [[recThree01], [recThree02], [recThree03], [recThree05]]

/-- The items the version records display as. -/
def itemOne : CustomTreeItem := ⟨"zzz999", "zzz_1234", "01", "/file/path"⟩

def itemTwo01 : CustomTreeItem := ⟨"zzz999", "zzz999_000", "01", "/file/path"⟩

def itemTwo02 : CustomTreeItem := ⟨"zzz999", "zzz999_000", "02", "/file/path"⟩

def itemThree01 : CustomTreeItem := ⟨"abc111", "abc111_5678", "01", "/file/path"⟩

def itemThree02 : CustomTreeItem := ⟨"abc111", "abc111_5678", "02", "/file/path"⟩

def itemThree03 : CustomTreeItem := ⟨"abc111", "abc111_5678", "03", "/file/path"⟩

def itemThree05 : CustomTreeItem := ⟨"abc111", "abc111_5678", "05", "/file/path"⟩

/-- A malformed record lacking the `Version` key, for the error claims. -/
def recNoVersion : Record :=
  [("Sequence", "zzz999"), ("Shot", "zzz_1234"), ("Location", "/file/path")]

/-- The tree the example dictionary builds: per folder, the item of the last
version group is the top-level node and the remaining items are its direct
children, newest first. -/
def exampleTree : List FolderNode :=
  [(itemOne, []),
   (itemTwo02, [itemTwo01]),
   (itemThree05, [itemThree03, itemThree02, itemThree01])]

/-! ### Helper lemmas -/

lemma ok_bind {α β : Type} (a : α) (f : α → Except BuildError β) :
    (Except.ok a >>= f) = f a := rfl

lemma error_bind {α β : Type} (e : BuildError) (f : α → Except BuildError β) :
    ((Except.error e : Except BuildError α) >>= f) = .error e := rfl

lemma itemsOfGroups_append (l₁ l₂ : List (List Record)) :
    itemsOfGroups (l₁ ++ l₂) =
      itemsOfGroups l₁ >>= fun a => itemsOfGroups l₂ >>= fun b => .ok (a ++ b) := by
  induction l₁ with
  | nil =>
    cases h : itemsOfGroups l₂ <;> simp [itemsOfGroups, h, ok_bind, error_bind]
  | cons g t ih =>
    show itemsOfGroups (g :: (t ++ l₂)) = _
    cases hg : itemOfGroup g with
    | error e => simp [itemsOfGroups, hg, ok_bind, error_bind]
    | ok it =>
      cases ht : itemsOfGroups t with
      | error e =>
        simp [itemsOfGroups, hg, ht, ok_bind, error_bind, ih]
      | ok its =>
        cases h₂ : itemsOfGroups l₂ <;>
          simp [itemsOfGroups, hg, ht, h₂, ok_bind, error_bind, ih]

lemma itemsOfGroups_reverse {l : List (List Record)} {xs : List CustomTreeItem}
    (h : itemsOfGroups l = .ok xs) :
    itemsOfGroups l.reverse = .ok xs.reverse := by
  induction l generalizing xs with
  | nil =>
    simp [itemsOfGroups] at h
    subst h
    simp [itemsOfGroups]
  | cons g t ih =>
    cases hg : itemOfGroup g with
    | error e => simp [itemsOfGroups, hg, ok_bind, error_bind] at h
    | ok it =>
      cases ht : itemsOfGroups t with
      | error e => simp [itemsOfGroups, hg, ht, ok_bind, error_bind] at h
      | ok its =>
        simp [itemsOfGroups, hg, ht, ok_bind] at h
        subst h
        simp [List.reverse_cons, itemsOfGroups_append, ih ht, ok_bind,
          itemsOfGroups, hg]

lemma folderLoop_some (rest : List (List Record)) (root : CustomTreeItem)
    (kids : List CustomTreeItem) :
    folderLoop (some (root, kids)) rest =
      (itemsOfGroups rest).map (fun more => some (root, kids ++ more)) := by
  induction rest generalizing kids with
  | nil => simp [folderLoop, itemsOfGroups, Except.map]
  | cons g t ih =>
    cases hg : itemOfGroup g with
    | error e => simp [folderLoop, itemsOfGroups, hg, ok_bind, error_bind, Except.map]
    | ok it =>
      cases ht : itemsOfGroups t with
      | error e =>
        simp [folderLoop, itemsOfGroups, hg, ht, ok_bind, error_bind, Except.map, ih]
      | ok its =>
        simp [folderLoop, itemsOfGroups, hg, ht, ok_bind, Except.map, ih]

lemma buildFolder_cons_reverse {value : List (List Record)} {g : List Record}
    {rest : List (List Record)} (hrev : value.reverse = g :: rest) :
    buildFolder value =
      itemOfGroup g >>= fun root =>
        (itemsOfGroups rest).map (fun kids => some (root, kids)) := by
  unfold buildFolder
  rw [hrev]
  cases hg : itemOfGroup g with
  | error e => simp [folderLoop, hg, ok_bind, error_bind]
  | ok it => simp [folderLoop, hg, ok_bind, folderLoop_some]

lemma widgetLoop_cons (acc : List FolderNode) (key : String)
    (value : List (List Record)) (rest : FolderData) :
    widgetLoop acc ((key, value) :: rest) =
      buildFolder value >>= fun nd? =>
        match nd? with
        | none => widgetLoop acc rest
        | some nd => widgetLoop (acc ++ [nd]) rest := rfl

lemma widgetLoop_acc (data : FolderData) (acc : List FolderNode) :
    widgetLoop acc data = (widgetLoop [] data).map (fun nds => acc ++ nds) := by
  induction data generalizing acc with
  | nil => simp [widgetLoop, Except.map]
  | cons kv rest ih =>
    obtain ⟨key, value⟩ := kv
    rw [widgetLoop_cons, widgetLoop_cons]
    cases hf : buildFolder value with
    | error e => rw [error_bind, error_bind]; rfl
    | ok nd? =>
      rw [ok_bind, ok_bind]
      cases nd? with
      | none => exact ih acc
      | some nd =>
        show widgetLoop (acc ++ [nd]) rest =
          Except.map (fun nds => acc ++ nds) (widgetLoop ([] ++ [nd]) rest)
        rw [ih (acc ++ [nd]), List.nil_append, ih [nd]]
        cases h : widgetLoop [] rest <;> simp [Except.map, h]

lemma itemsOfGroups_length {value : List (List Record)} {items : List CustomTreeItem}
    (h : itemsOfGroups value = .ok items) : items.length = value.length := by
  induction value generalizing items with
  | nil =>
    simp [itemsOfGroups] at h
    simp [h]
  | cons g t ih =>
    cases hg : itemOfGroup g with
    | error e => simp [itemsOfGroups, hg, error_bind] at h
    | ok it =>
      cases ht : itemsOfGroups t with
      | error e => simp [itemsOfGroups, hg, ht, ok_bind, error_bind] at h
      | ok its =>
        simp [itemsOfGroups, hg, ht, ok_bind] at h
        subst h
        simp [ih ht]

lemma foldr_itemLines_length (selected : List CustomTreeItem) :
    (selected.foldr (fun s acc => itemLines s ++ acc) []).length = 4 * selected.length := by
  induction selected with
  | nil => simp
  | cons s t ih =>
    show (itemLines s ++ t.foldr (fun s acc => itemLines s ++ acc) []).length =
      4 * (s :: t).length
    rw [List.length_append, ih]
    have h4 : (itemLines s).length = 4 := rfl
    rw [h4, List.length_cons]
    omega

/-! ### Claim theorems -/

/-- C1, counterexample.  The claim says the one root-level node per folder
is "a folder-label node, not a version node".  In the built tree the unique
root-level node for `/folderThree` is exactly the `CustomTreeItem`
constructed from the folder's last version record (Version 05): it is a
version node, and its children are only the remaining three versions. -/
theorem folderThree_root_is_version_node :
    buildFolder folderThreeGroups =
      .ok (some (itemThree05, [itemThree03, itemThree02, itemThree01])) ∧
    CustomTreeItem.fromRecord recThree05 = .ok itemThree05 ∧
    itemThree05.version = "05" :=
  ⟨rfl, rfl, rfl⟩

/-- C1, amended.  For every folder key with a non-empty version-group list
(whose groups all build successfully), the built tree contains exactly one
root-level node for that folder: the version node built from the last
version group.  Every other node created for the folder is attached
directly under that root as a flat one-level list, and the folder
contributes exactly that one node to the top level of the tree. -/
theorem folder_root_unique_and_flat :
    (∀ (value : List (List Record)) (g : List Record) (rest : List (List Record))
        (root : CustomTreeItem) (kids : List CustomTreeItem),
      value.reverse = g :: rest →
      itemOfGroup g = .ok root →
      itemsOfGroups rest = .ok kids →
      buildFolder value = .ok (some (root, kids))) ∧
    (∀ (key : String) (value : List (List Record)) (nd : FolderNode)
        (rest : FolderData) (ts : List FolderNode),
      buildFolder value = .ok (some nd) →
      buildTopLevel rest = .ok ts →
      buildTopLevel ((key, value) :: rest) = .ok (nd :: ts)) := by
  constructor
  · intro value g rest root kids hrev hg hkids
    rw [buildFolder_cons_reverse hrev, hg, ok_bind, hkids]
    rfl
  · intro key value nd rest ts hf hts
    show widgetLoop [] ((key, value) :: rest) = .ok (nd :: ts)
    rw [widgetLoop_cons, hf, ok_bind]
    show widgetLoop [nd] rest = .ok (nd :: ts)
    rw [widgetLoop_acc rest [nd]]
    have : widgetLoop [] rest = .ok ts := hts
    rw [this]
    rfl

/-- C1, witness: `/folderOne` (one version group) yields exactly one
root-level node with no children, and a one-folder dictionary yields
exactly that node at top level. -/
theorem folder_root_unique_and_flat_witness :
    ([[recOne]] : List (List Record)).reverse = [recOne] :: [] ∧
    itemOfGroup [recOne] = .ok itemOne ∧
    buildFolder [[recOne]] = .ok (some (itemOne, [])) ∧
    buildTopLevel [("/folderOne", [[recOne]])] = .ok [(itemOne, [])] :=
  ⟨rfl, rfl,
   folder_root_unique_and_flat.1 [[recOne]] [recOne] [] itemOne [] rfl rfl rfl,
   folder_root_unique_and_flat.2 "/folderOne" [[recOne]] (itemOne, []) [] [] rfl rfl⟩

/-- C2: for every folder whose version groups build as the item list
`items` (in source order), the folder's displayed version nodes, read top
to bottom, are exactly `items.reverse`: the last element of the source list
is shown first. -/
theorem displayed_order_is_reversal (value : List (List Record))
    (items : List CustomTreeItem) (h : itemsOfGroups value = .ok items) :
    ∃ nd, buildFolder value = .ok nd ∧ displayedVersions nd = items.reverse := by
  have hrev := itemsOfGroups_reverse h
  cases hv : value.reverse with
  | nil =>
    rw [hv] at hrev
    simp [itemsOfGroups] at hrev
    refine ⟨none, ?_, ?_⟩
    · unfold buildFolder
      rw [hv]
      rfl
    · simp [displayedVersions, hrev]
  | cons g rest =>
    rw [hv] at hrev
    cases hg : itemOfGroup g with
    | error e => simp [itemsOfGroups, hg, error_bind] at hrev
    | ok root =>
      cases ht : itemsOfGroups rest with
      | error e => simp [itemsOfGroups, hg, ht, ok_bind, error_bind] at hrev
      | ok kids =>
        simp [itemsOfGroups, hg, ht, ok_bind] at hrev
        refine ⟨some (root, kids), ?_, ?_⟩
        · rw [buildFolder_cons_reverse hv, hg, ok_bind, ht]
          rfl
        · simp [displayedVersions, hrev]

/-- C2, witness: `/folderThree` builds the items 01, 02, 03, 05 in source
order and displays them as 05, 03, 02, 01. -/
theorem displayed_order_is_reversal_witness :
    itemsOfGroups folderThreeGroups =
      .ok [itemThree01, itemThree02, itemThree03, itemThree05] ∧
    ∃ nd, buildFolder folderThreeGroups = .ok nd ∧
      displayedVersions nd =
        [itemThree01, itemThree02, itemThree03, itemThree05].reverse :=
  ⟨rfl, displayed_order_is_reversal folderThreeGroups
    [itemThree01, itemThree02, itemThree03, itemThree05] rfl⟩

/-- C3, counterexample.  The claim says the example dataset yields
top-level nodes with 1, 2 and 4 children and that `/folderThree`'s first
displayed child has Version 05.  The built tree has children counts
0, 1 and 3, and `/folderThree`'s first child has Version 03 (05 is the
top-level node itself). -/
theorem example_tree_counterexample :
    buildTopLevel _data = .ok exampleTree ∧
    exampleTree.map (fun nd => nd.2.length) = [0, 1, 3] ∧
    ([0, 1, 3] : List Nat) ≠ [1, 2, 4] ∧
    exampleTree.map (fun nd => nd.2.map CustomTreeItem.version) =
      [[], ["01"], ["03", "02", "01"]] :=
  ⟨rfl, rfl, by decide, rfl⟩

/-- C3, amended.  The example dataset yields exactly 3 top-level nodes;
counting each folder's displayed version nodes (the top-level node itself
plus its children) gives 1, 2 and 4; the children counts proper are 0, 1
and 3; `/folderThree`'s top-level node itself has Version 05 (the last
element, shown first), and its first child has Version 03. -/
theorem example_tree_amended :
    buildTopLevel _data = .ok exampleTree ∧
    exampleTree.length = 3 ∧
    exampleTree.map (fun nd => (nd.1 :: nd.2).length) = [1, 2, 4] ∧
    exampleTree.map (fun nd => nd.2.length) = [0, 1, 3] ∧
    exampleTree.map (fun nd => nd.1.version) = ["01", "02", "05"] ∧
    exampleTree.map (fun nd => nd.2.map CustomTreeItem.version) =
      [[], ["01"], ["03", "02", "01"]] :=
  ⟨rfl, rfl, rfl, rfl, rfl, rfl⟩

/-- C4: for every record holding the four fields Sequence, Shot, Version,
Location, the constructed node stores exactly those values, and the four
accessors read them back unmodified (round-trip identity). -/
theorem fromRecord_roundtrip (r : Record) (s sh v l : String)
    (hs : List.lookup "Sequence" r = some s) (hsh : List.lookup "Shot" r = some sh)
    (hv : List.lookup "Version" r = some v) (hl : List.lookup "Location" r = some l) :
    CustomTreeItem.fromRecord r = .ok ⟨s, sh, v, l⟩ ∧
    (CustomTreeItem.mk s sh v l).sequence = s ∧
    (CustomTreeItem.mk s sh v l).shot = sh ∧
    (CustomTreeItem.mk s sh v l).version = v ∧
    (CustomTreeItem.mk s sh v l).location = l := by
  refine ⟨?_, rfl, rfl, rfl, rfl⟩
  simp [CustomTreeItem.fromRecord, dict_get, hs, hsh, hv, hl, ok_bind]

/-- C4, witness: the `/folderOne` record round-trips. -/
theorem fromRecord_roundtrip_witness :
    List.lookup "Sequence" recOne = some "zzz999" ∧
    List.lookup "Shot" recOne = some "zzz_1234" ∧
    List.lookup "Version" recOne = some "01" ∧
    List.lookup "Location" recOne = some "/file/path" ∧
    (CustomTreeItem.fromRecord recOne = .ok ⟨"zzz999", "zzz_1234", "01", "/file/path"⟩ ∧
     (CustomTreeItem.mk "zzz999" "zzz_1234" "01" "/file/path").sequence = "zzz999" ∧
     (CustomTreeItem.mk "zzz999" "zzz_1234" "01" "/file/path").shot = "zzz_1234" ∧
     (CustomTreeItem.mk "zzz999" "zzz_1234" "01" "/file/path").version = "01" ∧
     (CustomTreeItem.mk "zzz999" "zzz_1234" "01" "/file/path").location = "/file/path") :=
  ⟨rfl, rfl, rfl, rfl,
   fromRecord_roundtrip recOne "zzz999" "zzz_1234" "01" "/file/path" rfl rfl rfl rfl⟩

/-- C5: with a non-empty selection, the show-selection action emits, for
every selected node in order, exactly four lines — Sequence, Shot, Version,
Location — each prefixed with the field name and carrying the stored value
verbatim; in total four lines per selected node. -/
theorem show_selection_emits_four_lines (selected : List CustomTreeItem)
    (h : selected ≠ []) :
    show_data_useage selected =
      selected.foldr (fun s acc =>
        [">> Sequence: " ++ s.sequence, ">> Shot: " ++ s.shot,
         ">> Version: " ++ s.version, ">> Location: " ++ s.location] ++ acc) [] ∧
    (show_data_useage selected).length = 4 * selected.length := by
  have hne : selected.isEmpty = false := by
    cases selected with
    | nil => exact absurd rfl h
    | cons a t => rfl
  constructor
  · simp [show_data_useage, hne, itemLines]
  · simp [show_data_useage, hne]
    exact foldr_itemLines_length selected

/-- C5, witness: selecting the node for the record with Sequence zzz999,
Shot zzz_1234, Version 01, Location /file/path emits exactly these four
lines. -/
theorem show_selection_emits_four_lines_witness :
    ([itemOne] : List CustomTreeItem) ≠ [] ∧
    show_data_useage [itemOne] =
      [">> Sequence: zzz999", ">> Shot: zzz_1234",
       ">> Version: 01", ">> Location: /file/path"] ∧
    (show_data_useage [itemOne]).length = 4 * ([itemOne] : List CustomTreeItem).length := by
  have h := show_selection_emits_four_lines [itemOne] (List.cons_ne_nil itemOne [])
  refine ⟨List.cons_ne_nil itemOne [], ?_, h.2⟩
  rw [h.1]
  rfl

/-- C6: with zero nodes selected, the show-selection action emits zero
field lines and exactly the single log line `Please select a row`, doing
nothing else. -/
theorem show_selection_empty_logs_once :
    show_data_useage [] = ["Please select a row"] := rfl

/-- C7: for every record missing one of the four required fields, node
construction fails with a field-missing error naming a field that is
genuinely absent from the record — no default is substituted. -/
theorem fromRecord_missing_field (r : Record)
    (h : List.lookup "Sequence" r = none ∨ List.lookup "Shot" r = none ∨
      List.lookup "Version" r = none ∨ List.lookup "Location" r = none) :
    ∃ f, CustomTreeItem.fromRecord r = .error (.fieldMissing f) ∧
      List.lookup f r = none := by
  cases hs : List.lookup "Sequence" r with
  | none =>
    exact ⟨"Sequence",
      by simp [CustomTreeItem.fromRecord, dict_get, hs, error_bind], hs⟩
  | some s =>
    cases hsh : List.lookup "Shot" r with
    | none =>
      exact ⟨"Shot",
        by simp [CustomTreeItem.fromRecord, dict_get, hs, hsh, ok_bind, error_bind], hsh⟩
    | some sh =>
      cases hv : List.lookup "Version" r with
      | none =>
        exact ⟨"Version",
          by simp [CustomTreeItem.fromRecord, dict_get, hs, hsh, hv, ok_bind, error_bind], hv⟩
      | some v =>
        cases hl : List.lookup "Location" r with
        | none =>
          exact ⟨"Location",
            by simp [CustomTreeItem.fromRecord, dict_get, hs, hsh, hv, hl, ok_bind, error_bind], hl⟩
        | some l => simp [hs, hsh, hv, hl] at h

/-- C7, witness: a record lacking `Version` fails construction with a
field-missing error for `Version`. -/
theorem fromRecord_missing_field_witness :
    (List.lookup "Sequence" recNoVersion = none ∨
     List.lookup "Shot" recNoVersion = none ∨
     List.lookup "Version" recNoVersion = none ∨
     List.lookup "Location" recNoVersion = none) ∧
    ∃ f, CustomTreeItem.fromRecord recNoVersion = .error (.fieldMissing f) ∧
      List.lookup f recNoVersion = none :=
  ⟨Or.inr (Or.inr (Or.inl rfl)),
   fromRecord_missing_field recNoVersion (Or.inr (Or.inr (Or.inl rfl)))⟩

/-- C8, counterexample.  The claim says a folder with an empty
version-group list produces a folder node with zero children; in fact the
build raises no error but produces no node at all for that key: the
top-level list is empty. -/
theorem empty_folder_counterexample :
    buildTopLevel [("/folderEmpty", ([] : List (List Record)))] = .ok [] := rfl

/-- C8, amended.  For every folder key with an empty version-group list,
building raises no error, and the folder contributes no node whatsoever:
the tree is exactly what the remaining folders build. -/
theorem empty_folder_no_node :
    ∀ (key : String) (rest : FolderData),
      buildFolder ([] : List (List Record)) = .ok none ∧
      buildTopLevel ((key, []) :: rest) = buildTopLevel rest :=
  fun _key _rest => ⟨rfl, rfl⟩

/-- C9: the builder creates exactly one node from each version group,
taking its field values from the group's first record only — additional
records in a group contribute nothing — and the number of created nodes
equals the number of groups. -/
theorem group_contributes_one_node_from_first :
    (∀ (r : Record) (rest : List Record),
      itemOfGroup (r :: rest) = CustomTreeItem.fromRecord r) ∧
    (∀ (value : List (List Record)) (items : List CustomTreeItem),
      itemsOfGroups value = .ok items → items.length = value.length) :=
  ⟨fun _r _rest => rfl, fun _value _items h => itemsOfGroups_length h⟩

/-- C9, witness: a two-record group builds the node of its first record
alone, and `/folderThree`'s four groups build exactly four nodes. -/
theorem group_contributes_one_node_from_first_witness :
    itemOfGroup [recThree05, recThree01] = CustomTreeItem.fromRecord recThree05 ∧
    itemsOfGroups folderThreeGroups =
      .ok [itemThree01, itemThree02, itemThree03, itemThree05] ∧
    ([itemThree01, itemThree02, itemThree03, itemThree05] : List CustomTreeItem).length =
      folderThreeGroups.length :=
  ⟨group_contributes_one_node_from_first.1 recThree05 [recThree01], rfl,
   group_contributes_one_node_from_first.2 folderThreeGroups
     [itemThree01, itemThree02, itemThree03, itemThree05] rfl⟩

/-- C10: construction stores the input mapping unchanged — the widget's
`data` accessor returns exactly the dictionary the widget was built from
(the build only reads the mapping; in this pure model it cannot mutate
it). -/
theorem build_stores_input_unchanged :
    ∀ (d : FolderData) (w : CustomTreeWidget),
      CustomTreeWidget.build d = .ok w → w.data = d := by
  intro d w hw
  have hb : CustomTreeWidget.build d =
      buildTopLevel d >>= fun ts => .ok ⟨d, ts⟩ := rfl
  cases hts : buildTopLevel d with
  | error e =>
    rw [hb, hts, error_bind] at hw
    exact Except.noConfusion hw
  | ok ts =>
    rw [hb, hts, ok_bind] at hw
    injection hw with h
    rw [← h]
    rfl

/-- C10, witness: building from the example dictionary stores it
unchanged and the `data` accessor returns it. -/
theorem build_stores_input_unchanged_witness :
    CustomTreeWidget.build _data = .ok ⟨_data, exampleTree⟩ ∧
    (CustomTreeWidget.mk _data exampleTree).data = _data :=
  ⟨rfl, build_stores_input_unchanged _data ⟨_data, exampleTree⟩ rfl⟩

end CustomQTree
